import Mathlib

/-!
# Reelify Motion-IR pipeline: shallow embedding and verification

This file embeds the core of the Reelify backend in Lean 4 and proves
properties of it:

* the Motion-IR data model with `createBasicTimeline` / `validateMotionIR`
  (from `schema.ts`, shipped in the repository as the unnamed schema module
  and as `dist/schema.js`),
* the Mapper's fallback schema synthesis and `validateSchema`
  (from `dist/mapper.js`),
* the Director — duration extraction, prompt classification, camera,
  layer and global-effect construction (from `src/director.ts`),
* the Coder's per-layer animated style computation (from `src/coder.tsx`),
* the Pipeline orchestrator's validation gating and retry control flow
  (from `src/pipeline.ts`).

Conventions of the embedding:
* JavaScript numbers are modelled as `ℚ` (all numeric constants appearing in
  this code are exact in ℚ, e.g. `0.5`, `0.7`);
* `undefined` / optional fields are modelled as `Option`;
* the call `new Date().toISOString()` in `createBasicTimeline` is modelled by
  an explicit `now : String` parameter (the clock is an input of the
  embedding);
* fallible stages are modelled with `Except`.
-/

/-! ## Motion-IR data model (schema module) -/

inductive AssetType
  | image | video | audio | text
  deriving DecidableEq, Repr

/-- `metadata?: Record<string, any>` on an Asset; the Director only ever
stores these three fields. -/
structure AssetMetadata where
  originalWidth : ℚ
  originalHeight : ℚ
  dominantColors : List String
  deriving DecidableEq, Repr

structure Asset where
  id : String
  type : AssetType
  src : String
  metadata : Option AssetMetadata
  deriving DecidableEq, Repr

/-- `{x: number; y: number; z?: number}` used by keyframe properties. -/
structure PropVec where
  x : ℚ
  y : ℚ
  z : Option ℚ
  deriving DecidableEq, Repr

inductive Easing
  | linear | easeIn | easeOut | easeInOut | spring
  deriving DecidableEq, Repr

structure KeyframeProperties where
  position : Option PropVec := none
  scale : Option PropVec := none
  rotation : Option PropVec := none
  opacity : Option ℚ := none
  color : Option String := none
  filter : Option String := none
  deriving DecidableEq, Repr

structure Keyframe where
  time : ℚ
  properties : KeyframeProperties
  easing : Option Easing := none
  deriving DecidableEq, Repr

inductive EffectType
  | zoom | pan | opacity | slide | fade | blur | colorGrade | filmGrain
  deriving DecidableEq, Repr

/-- A value of an effect's `parameters: Record<string, number|string|boolean>`. -/
inductive ParamVal
  | num (q : ℚ)
  | str (s : String)
  | bool (b : Bool)
  deriving DecidableEq, Repr

structure Effect where
  id : String
  type : EffectType
  parameters : List (String × ParamVal)
  startTime : ℚ
  duration : ℚ
  deriving DecidableEq, Repr

inductive LayerType
  | image | text | shape | composition
  deriving DecidableEq, Repr

structure Layer where
  id : String
  name : String
  type : LayerType
  assetId : Option String := none
  trackIndex : Nat
  startTime : ℚ
  duration : ℚ
  keyframes : List Keyframe
  effects : List Effect
  blendMode : Option String := none
  visible : Bool
  deriving DecidableEq, Repr

inductive TrackType
  | video | audio | effect
  deriving DecidableEq, Repr

structure Track where
  id : String
  name : String
  index : Nat
  type : TrackType
  layers : List Layer
  locked : Bool
  visible : Bool
  deriving DecidableEq, Repr

/-- Camera type `'2D' | '2.5D' | '3D'`. -/
inductive CameraType
  | twoD | twoPointFiveD | threeD
  deriving DecidableEq, Repr

structure V3 where
  x : ℚ
  y : ℚ
  z : ℚ
  deriving DecidableEq, Repr

inductive CamMoveType
  | static | pan | zoom | dolly | orbit | tracking
  deriving DecidableEq, Repr

/-- One camera movement. The source fields `from`/`to` are keywords in Lean,
so they are embedded as `fromV`/`toV`. -/
structure CameraMovement where
  type : CamMoveType
  fromV : V3
  toV : V3
  startTime : ℚ
  duration : ℚ
  easing : Easing
  deriving DecidableEq, Repr

structure Camera where
  type : CameraType
  position : V3
  target : V3
  fov : Option ℚ := none
  movements : List CameraMovement
  deriving DecidableEq, Repr

structure TimelineMetadata where
  projectName : String
  createdAt : String
  duration : ℚ
  fps : ℚ
  width : ℚ
  height : ℚ
  backgroundColor : Option String := none
  deriving DecidableEq, Repr

structure Timeline where
  version : String
  metadata : TimelineMetadata
  assets : List Asset
  tracks : List Track
  camera : Camera
  globalEffects : List Effect
  deriving DecidableEq, Repr

structure ValidationResult where
  isValid : Bool
  errors : List String
  deriving DecidableEq, Repr

/-- `createBasicTimeline(duration=5, width=1920, height=1080, fps=30)`.
The source stamps `createdAt: new Date().toISOString()`; the clock reading is
the explicit parameter `now`. -/
def createBasicTimeline (duration : ℚ) (width : ℚ) (height : ℚ) (fps : ℚ)
    (now : String) : Timeline :=
  { version := "1.0"
    metadata :=
      { projectName := "Motion-IR Generated Video"
        createdAt := now
        duration := duration
        fps := fps
        width := width
        height := height
        backgroundColor := some "#000000" }
    assets := []
    tracks := []
    camera :=
      { type := .twoD
        position := ⟨0, 0, 0⟩
        target := ⟨0, 0, 0⟩
        movements := [] }
    globalEffects := [] }

/-- The keyframe-bounds error messages of `validateMotionIR`:
`Keyframe ${kfIndex} in layer ${layerIndex} of track ${trackIndex} has invalid time`. -/
def keyframeTimeErrors (t : Timeline) : List String :=
  (t.tracks.enum.map (fun p =>
    (p.2.layers.enum.map (fun q =>
      (q.2.keyframes.enum.filterMap (fun r =>
        if r.2.time < 0 ∨ r.2.time > t.metadata.duration then
          some ("Keyframe " ++ toString r.1 ++ " in layer " ++ toString q.1 ++
            " of track " ++ toString p.1 ++ " has invalid time")
        else none)))).flatten)).flatten

/-- `validateMotionIR(timeline)` from the schema module: collects all
violations, never short-circuits. `maxLayerEnd` embeds
`Math.max(...tracks.flatMap(track => track.layers.map(l => l.startTime + l.duration)), 0)`. -/
def validateMotionIR (t : Timeline) : ValidationResult :=
  let assetErrors : List String :=
    if t.assets.isEmpty then ["Timeline must have at least one asset"] else []
  let trackErrors : List String :=
    if t.tracks.isEmpty then ["Timeline must have at least one track"] else []
  let layerEnds : List ℚ :=
    ((t.tracks.map (fun tr => tr.layers.map (fun l => l.startTime + l.duration))).flatten)
  let maxLayerEnd : ℚ := layerEnds.foldr max 0
  let durationErrors : List String :=
    if maxLayerEnd > t.metadata.duration then
      ["Some layers extend beyond timeline duration"] else []
  let errors := assetErrors ++ trackErrors ++ durationErrors ++ keyframeTimeErrors t
  { isValid := errors.isEmpty, errors := errors }

/-- C5: `validateMotionIR` on the empty skeleton returned by
`createBasicTimeline()` (default arguments 5s, 1920×1080, 30fps) reports
`isValid = false` with exactly the two errors about a missing asset and a
missing track, in that order; the embedded function is total, so it cannot
throw. -/
theorem C5_validate_empty_skeleton (now : String) :
    validateMotionIR (createBasicTimeline 5 1920 1080 30 now) =
      { isValid := false,
        errors := ["Timeline must have at least one asset",
                   "Timeline must have at least one track"] } := rfl

/-! ## Mapper (`dist/mapper.js`): fallback schema and `validateSchema` -/

/-- Lower-case a string character-wise (`String.prototype.toLowerCase` on the
ASCII strings this code handles). -/
def lowerStr (s : String) : String := String.mk (s.toList.map Char.toLower)

/-- `haystack.includes(needle)` on character lists. -/
def listContainsSub (pat : List Char) : List Char → Bool
  | [] => pat.isEmpty
  | c :: t => pat.isPrefixOf (c :: t) || listContainsSub pat t

/-- `s.includes(sub)` (JavaScript substring test). -/
def strIncludes (s sub : String) : Bool := listContainsSub sub.toList s.toList

/-- The typed visual-elements schema produced by the Mapper
(`Schema` in `mapper.js`). -/
structure FocalPoint where
  x : ℚ
  y : ℚ
  confidence : ℚ
  deriving DecidableEq, Repr

structure SegmentInfo where
  region : String
  confidence : ℚ
  bounds : List ℚ
  deriving DecidableEq, Repr

structure SchemaElements where
  primary : List String
  secondary : List String
  deriving DecidableEq, Repr

structure SchemaScene where
  emotion : String
  lighting : String
  colors : List String
  depth_layers : List String
  deriving DecidableEq, Repr

structure SchemaComposition where
  focus : String
  perspective : String
  style : String
  deriving DecidableEq, Repr

structure VisualAnalysis where
  dominant_colors : List String
  contrast_ratio : ℚ
  complexity_score : ℚ
  focal_points : List FocalPoint
  segmentation : List SegmentInfo
  deriving DecidableEq, Repr

structure Schema where
  elements : SchemaElements
  scene : SchemaScene
  composition : SchemaComposition
  visual_analysis : VisualAnalysis
  deriving DecidableEq, Repr

/-- `generateEnhancedMockSchema(imagePath)`: the deterministic fallback
schema.  The source builds one base object and then mutates it in an
`if / else if / else if` chain keyed on substring checks against the
lower-cased image path; each branch below is the final value of that object
on the corresponding path. -/
def generateEnhancedMockSchema (imagePath : String) : Schema :=
  let base : Schema :=
    { elements :=
        { primary := ["main subject", "central element"]
          secondary := ["background elements", "supporting objects", "environmental context"] }
      scene :=
        { emotion := "calm"
          lighting := "balanced lighting"
          colors := ["#2563eb", "#ffffff", "#f1f5f9"]
          depth_layers := ["foreground", "midground", "background"] }
      composition :=
        { focus := "center"
          perspective := "frontal"
          style := "photographic" }
      visual_analysis :=
        { dominant_colors := ["#2563eb", "#ffffff", "#f1f5f9"]
          contrast_ratio := 0.6
          complexity_score := 0.4
          focal_points := [⟨0.5, 0.5, 0.9⟩, ⟨0.3, 0.4, 0.7⟩]
          segmentation :=
            [⟨"main subject", 0.85, [0.2, 0.2, 0.6, 0.6]⟩,
             ⟨"background", 0.9, [0, 0, 1, 1]⟩] } }
  let lp := lowerStr imagePath
  if strIncludes lp "portrait" then
    { base with
        composition := { base.composition with perspective := "close-up" }
        elements := { base.elements with
          primary := "person" :: base.elements.primary } }
  else if strIncludes lp "landscape" then
    { base with
        composition := { base.composition with perspective := "wide" }
        scene := { base.scene with
          depth_layers := base.scene.depth_layers ++ ["far background"] }
        elements := { base.elements with
          secondary := base.elements.secondary ++ ["horizon"] } }
  else if strIncludes lp "abstract" then
    { base with
        composition := { base.composition with style := "abstract" }
        visual_analysis := { base.visual_analysis with complexity_score := 0.8 } }
  else base

/-- A JavaScript value as seen by `validateSchema`'s dynamic checks. -/
inductive JsVal
  | undef
  | str (s : String)
  | arr (xs : List String)
  | num (q : ℚ)
  deriving DecidableEq, Repr

/-- JavaScript truthiness of a `JsVal` (`undefined`, `""` and `0` are falsy;
arrays are always truthy). -/
def jsTruthy : JsVal → Bool
  | .undef => false
  | .str s => s ≠ ""
  | .arr _ => true
  | .num q => q ≠ 0

/-- `Array.isArray`. -/
def isArrayVal : JsVal → Bool
  | .arr _ => true
  | _ => false

/-- The fields of a schema object that `validateSchema` in `dist/mapper.js`
inspects, with dynamic (possibly missing / mistyped) values. -/
structure DynElements where
  primary : JsVal
  deriving DecidableEq, Repr

structure DynScene where
  emotion : JsVal
  colors : JsVal
  deriving DecidableEq, Repr

structure DynComposition where
  focus : JsVal
  deriving DecidableEq, Repr

structure DynVisual where
  dominant_colors : JsVal
  deriving DecidableEq, Repr

structure DynSchema where
  elements : Option DynElements
  scene : Option DynScene
  composition : Option DynComposition
  visual_analysis : Option DynVisual
  deriving DecidableEq, Repr

/-- `validateSchema(schema)` from `dist/mapper.js`.  Each condition is the
direct transcription of the corresponding `if (!... || !...)` check. -/
def validateSchema (s : DynSchema) : ValidationResult :=
  let e1 : List String :=
    if (match s.elements with
        | none => true
        | some el => !(isArrayVal el.primary)) then
      ["Missing or invalid primary elements"] else []
  let e2 : List String :=
    if (match s.scene with
        | none => true
        | some sc => !(jsTruthy sc.emotion) || !(isArrayVal sc.colors)) then
      ["Missing or invalid scene information"] else []
  let e3 : List String :=
    if (match s.composition with
        | none => true
        | some c => !(jsTruthy c.focus)) then
      ["Missing or invalid composition information"] else []
  let e4 : List String :=
    if (match s.visual_analysis with
        | none => true
        | some v => !(isArrayVal v.dominant_colors)) then
      ["Missing or invalid visual analysis"] else []
  let errors := e1 ++ e2 ++ e3 ++ e4
  { isValid := errors.isEmpty, errors := errors }

/-- View a typed `Schema` as the dynamic object `validateSchema` receives. -/
def schemaToDyn (s : Schema) : DynSchema :=
  { elements := some { primary := .arr s.elements.primary }
    scene := some { emotion := .str s.scene.emotion, colors := .arr s.scene.colors }
    composition := some { focus := .str s.composition.focus }
    visual_analysis := some { dominant_colors := .arr s.visual_analysis.dominant_colors } }

/-- `mapper(imagePath)`: the `fs.existsSync` guard throws outside the
`try`; any failure of the encode → vision-analysis → parse chain inside the
`try` (modelled by the `analysis` argument) is caught and replaced by the
deterministic fallback schema. -/
def mapper (imagePath : String) (imageExists : Bool)
    (analysis : Except String Schema) : Except String Schema :=
  if !imageExists then .error ("Image file not found: " ++ imagePath)
  else
    match analysis with
    | .ok s => .ok s
    | .error _ => .ok (generateEnhancedMockSchema imagePath)

/-- Claim-level predicate: `elements.primary` is not a sequence (also when
`elements` itself is absent). -/
def primaryNotSequence (s : DynSchema) : Bool :=
  match s.elements with
  | none => true
  | some el => !(isArrayVal el.primary)

/-- Claim-level predicate: `scene.emotion` is missing (falsy). -/
def emotionMissing (s : DynSchema) : Bool :=
  match s.scene with
  | none => true
  | some sc => !(jsTruthy sc.emotion)

/-- Claim-level predicate: `composition.focus` is missing (falsy). -/
def focusMissing (s : DynSchema) : Bool :=
  match s.composition with
  | none => true
  | some c => !(jsTruthy c.focus)

/-- Claim-level predicate: `scene.colors` is not a sequence. -/
def colorsNotSequence (s : DynSchema) : Bool :=
  match s.scene with
  | none => true
  | some sc => !(isArrayVal sc.colors)

/-- Claim-level predicate: `visual_analysis.dominant_colors` is not a
sequence. -/
def dominantColorsNotSequence (s : DynSchema) : Bool :=
  match s.visual_analysis with
  | none => true
  | some v => !(isArrayVal v.dominant_colors)

/-- `isEmpty` distributes over append. -/
theorem list_isEmpty_append (l m : List String) :
    (l ++ m).isEmpty = (l.isEmpty && m.isEmpty) := by
  cases l <;> simp [List.isEmpty]

/-- A schema whose `scene.colors` is an *empty sequence* but otherwise
complete: `Array.isArray([])` is `true`, so the validator accepts it. -/
def schemaEmptyColors : DynSchema :=
  { elements := some { primary := .arr ["main subject"] }
    scene := some { emotion := .str "calm", colors := .arr [] }
    composition := some { focus := .str "center" }
    visual_analysis := some { dominant_colors := .arr ["#ffffff"] } }

/-- A schema whose `elements.primary` is a string rather than a sequence. -/
def schemaBadPrimary : DynSchema :=
  { elements := some { primary := .str "main subject" }
    scene := some { emotion := .str "calm", colors := .arr ["#000000"] }
    composition := some { focus := .str "center" }
    visual_analysis := some { dominant_colors := .arr ["#ffffff"] } }

/-- C8 (counterexample): the claim says a schema whose `scene.colors` is an
empty sequence is reported invalid; `validateSchema` only performs
`Array.isArray` checks and accepts it with no errors. -/
theorem C8_empty_colors_accepted :
    validateSchema schemaEmptyColors = { isValid := true, errors := [] } := rfl

/-- C8 (amended): `validateSchema` returns `isValid = false` for any schema
in which `elements.primary` is not a sequence, `scene.emotion` is missing,
`composition.focus` is missing, `scene.colors` is not a sequence, or
`visual_analysis.dominant_colors` is not a sequence; emptiness of the
sequences is not checked. -/
theorem C8_validateSchema_flags (s : DynSchema)
    (h : primaryNotSequence s = true ∨ emotionMissing s = true ∨
         focusMissing s = true ∨ colorsNotSequence s = true ∨
         dominantColorsNotSequence s = true) :
    (validateSchema s).isValid = false := by
  rcases s with ⟨el, sc, co, va⟩
  rcases h with h | h | h | h | h
  · rcases el with _ | el <;>
      simp_all [primaryNotSequence, validateSchema, list_isEmpty_append]
  · rcases sc with _ | sc <;>
      simp_all [emotionMissing, validateSchema, list_isEmpty_append]
  · rcases co with _ | co <;>
      simp_all [focusMissing, validateSchema, list_isEmpty_append]
  · rcases sc with _ | sc <;>
      simp_all [colorsNotSequence, validateSchema, list_isEmpty_append]
  · rcases va with _ | va <;>
      simp_all [dominantColorsNotSequence, validateSchema, list_isEmpty_append]

/-- Witness for `C8_validateSchema_flags` at a concrete schema. -/
theorem C8_validateSchema_flags_witness :
    (validateSchema schemaBadPrimary).isValid = false :=
  C8_validateSchema_flags schemaBadPrimary (Or.inl rfl)

/-- C9: when the analysis chain inside the Mapper's `try` fails for any
reason, the failure is not propagated: the Mapper returns the deterministic
fallback schema; that fallback passes `validateSchema`; and an image
reference containing "portrait" gets perspective "close-up" with "person"
prepended to the primary elements. -/
theorem C9_mapper_fallback (path e : String) :
    mapper path true (.error e) = .ok (generateEnhancedMockSchema path) ∧
    (validateSchema (schemaToDyn (generateEnhancedMockSchema path))).isValid = true ∧
    (strIncludes (lowerStr path) "portrait" = true →
      (generateEnhancedMockSchema path).composition.perspective = "close-up" ∧
      (generateEnhancedMockSchema path).elements.primary =
        ["person", "main subject", "central element"]) := by
  refine ⟨rfl, ?_, ?_⟩
  · cases hp : strIncludes (lowerStr path) "portrait" <;>
      cases hl : strIncludes (lowerStr path) "landscape" <;>
        cases ha : strIncludes (lowerStr path) "abstract" <;>
          simp [generateEnhancedMockSchema, hp, hl, ha] <;> rfl
  · intro h
    simp [generateEnhancedMockSchema, h]

/-- Witness for `C9_mapper_fallback` at a concrete portrait path (the inner
implication's hypothesis is discharged by evaluation). -/
theorem C9_mapper_fallback_witness :
    (generateEnhancedMockSchema "portrait.jpg").composition.perspective = "close-up" ∧
    (validateSchema (schemaToDyn (generateEnhancedMockSchema "portrait.jpg"))).isValid = true :=
  ⟨((C9_mapper_fallback "portrait.jpg" "connection refused").2.2 (by decide)).1,
   (C9_mapper_fallback "portrait.jpg" "connection refused").2.1⟩

/-! ## Director (`src/director.ts`) -/

/-- A case-insensitive literal match: consumes `pat` (given lower-case) at
the head of `s`, returning the rest. -/
def matchLitCI : List Char → List Char → Option (List Char)
  | [], s => some s
  | _ :: _, [] => none
  | p :: ps, c :: cs => if c.toLower == p then matchLitCI ps cs else none

/-- `(\d+)`: the maximal digit run at the head (at least one digit), parsed
as in `parseInt`, together with the remaining characters. -/
def takeDigits1 (s : List Char) : Option (Nat × List Char) :=
  let ds := s.takeWhile Char.isDigit
  if ds.isEmpty then none
  else some (ds.foldl (fun acc c => acc * 10 + (c.toNat - '0'.toNat)) 0, s.drop ds.length)

/-- `\s*`. -/
def skipWs (s : List Char) : List Char := s.dropWhile Char.isWhitespace

/-- `\s+`. -/
def skipWs1 : List Char → Option (List Char)
  | [] => none
  | c :: t => if c.isWhitespace then some (skipWs t) else none

/-- `[:\s]+`. -/
def skipColonWs1 : List Char → Option (List Char)
  | [] => none
  | c :: t =>
    if c == ':' || c.isWhitespace then
      some (t.dropWhile (fun d => d == ':' || d.isWhitespace))
    else none

/-- `/(\d+)\s*seconds?/i` anchored at the current position (the optional
trailing `s?` never affects the match). For these patterns maximal-munch
matching of `\d+`, `\s*` and the character classes agrees with the
backtracking regex engine, because each following atom can never consume a
character the class just gave up. -/
def p1At (s : List Char) : Option Nat := do
  let (n, r) ← takeDigits1 s
  let _ ← matchLitCI "second".toList (skipWs r)
  pure n

/-- `/(\d+)\s*sec/i` anchored at the current position. -/
def p2At (s : List Char) : Option Nat := do
  let (n, r) ← takeDigits1 s
  let _ ← matchLitCI "sec".toList (skipWs r)
  pure n

/-- `/duration[:\s]+(\d+)/i` anchored at the current position. -/
def p3At (s : List Char) : Option Nat := do
  let r ← matchLitCI "duration".toList s
  let r ← skipColonWs1 r
  let (n, _) ← takeDigits1 r
  pure n

/-- `/for\s+(\d+)\s*seconds?/i` anchored at the current position. -/
def p4At (s : List Char) : Option Nat := do
  let r ← matchLitCI "for".toList s
  let r ← skipWs1 r
  let (n, r2) ← takeDigits1 r
  let _ ← matchLitCI "second".toList (skipWs r2)
  pure n

/-- `prompt.match(pattern)`: the leftmost position where the pattern
matches, scanning left to right. -/
def firstMatchAt (m : List Char → Option Nat) : List Char → Option Nat
  | [] => none
  | c :: t => m (c :: t) <|> firstMatchAt m t

/-- One iteration of the loop body of `extractDurationFromPrompt`: a match
whose captured value fails `0 < n ≤ 30` does not stop the loop. -/
def tryPattern (m : List Char → Option Nat) (s : List Char) : Option Nat :=
  match firstMatchAt m s with
  | some n => if 0 < n ∧ n ≤ 30 then some n else none
  | none => none

/-- `extractDurationFromPrompt(prompt)`: the four patterns are tried in
order; the first whose (first) match passes the range check wins. -/
def extractDurationFromPrompt (prompt : String) : Option Nat :=
  let s := prompt.toList
  match tryPattern p1At s with
  | some n => some n
  | none =>
    match tryPattern p2At s with
    | some n => some n
    | none =>
      match tryPattern p3At s with
      | some n => some n
      | none => tryPattern p4At s

inductive Style
  | cinematic | dynamic | gentle | dramatic | minimal
  deriving DecidableEq, Repr

inductive Movement
  | static | pan | zoom | dolly | orbit
  deriving DecidableEq, Repr

inductive Mood
  | calm | energetic | mysterious | uplifting | tense
  deriving DecidableEq, Repr

structure CreativeDirection where
  style : Style
  movement : Movement
  mood : Mood
  effects : List String
  deriving DecidableEq, Repr

/-- `analyzePrompt(prompt)`: four independent keyword axes over the
lower-cased prompt, first match wins per axis. -/
def analyzePrompt (prompt : String) : CreativeDirection :=
  let lp := lowerStr prompt
  let has := fun kw => strIncludes lp kw
  let style : Style :=
    if has "cinematic" || has "movie" || has "film" then .cinematic
    else if has "dynamic" || has "energetic" || has "fast" then .dynamic
    else if has "dramatic" || has "intense" || has "powerful" then .dramatic
    else if has "minimal" || has "simple" || has "clean" then .minimal
    else .gentle
  let movement : Movement :=
    if has "pan" || has "panorama" then .pan
    else if has "zoom" || has "push in" || has "zoom in" then .zoom
    else if has "dolly" || has "slide" || has "move" then .dolly
    else if has "orbit" || has "rotate" || has "spin" then .orbit
    else .static
  let mood : Mood :=
    if has "energetic" || has "exciting" || has "vibrant" then .energetic
    else if has "mysterious" || has "dark" || has "shadow" then .mysterious
    else if has "uplifting" || has "bright" || has "positive" then .uplifting
    else if has "tense" || has "intense" || has "urgent" then .tense
    else .calm
  let fx : List String :=
    (if has "fade" || has "fade in" || has "fade out" then ["fade"] else []) ++
    (if has "blur" || has "depth of field" then ["blur"] else []) ++
    (if has "grain" || has "film grain" then ["film_grain"] else []) ++
    (if has "color grade" || has "color grading" then ["color_grade"] else [])
  { style := style, movement := movement, mood := mood, effects := fx }

def movementToCam : Movement → CamMoveType
  | .static => .static
  | .pan => .pan
  | .zoom => .zoom
  | .dolly => .dolly
  | .orbit => .orbit

/-- `determineCameraMovement(direction, schema)`.  Note the source hardcodes
`const duration = 5` with the comment "will be overridden by timeline" — it
never is; the movement's duration is always `5 - 0.5 = 4.5`. -/
def determineCameraMovement (direction : CreativeDirection) (schema : Schema) : Camera :=
  let camType : CameraType :=
    if direction.style = .cinematic ∨ schema.scene.depth_layers.length > 2 then
      .twoPointFiveD
    else .twoD
  let movements : List CameraMovement :=
    if direction.movement ≠ .static then
      let duration : ℚ := 5
      let startTime : ℚ := 0.5
      [{ type := movementToCam direction.movement
         fromV := ⟨0, 0, 0⟩
         toV :=
           if direction.movement = .pan then ⟨100, 0, 0⟩
           else if direction.movement = .zoom then ⟨0, 0, -200⟩
           else if direction.movement = .dolly then ⟨0, 0, 150⟩
           else ⟨0, 0, 0⟩
         startTime := startTime
         duration := duration - startTime
         easing := if direction.style = .cinematic then .easeInOut else .linear }]
    else []
  { type := camType
    position := ⟨0, 0, 0⟩
    target := ⟨0, 0, 0⟩
    movements := movements }

/-- `createMainImageLayer(assetId, duration, direction, schema)` (the
`schema` argument is unused by the source body). -/
def createMainImageLayer (assetId : String) (duration : ℚ)
    (direction : CreativeDirection) (schema : Schema) : Layer :=
  let fadeInEffect : Effect :=
    { id := "fade-in", type := .fade
      parameters := [("type", .str "in"), ("duration", .num 0.5)]
      startTime := 0, duration := 0.5 }
  let fadeOutEffect : Effect :=
    { id := "fade-out", type := .fade
      parameters := [("type", .str "out"), ("duration", .num 0.5)]
      startTime := duration - 0.5, duration := 0.5 }
  { id := "main-image-layer"
    name := "Main Image"
    type := .image
    assetId := some assetId
    trackIndex := 0
    startTime := 0
    duration := duration
    keyframes :=
      if direction.movement = .zoom then
        [{ time := 0, properties := { scale := some ⟨1, 1, none⟩, opacity := some 1 } },
         { time := duration * 0.7,
           properties := { scale := some ⟨1.2, 1.2, none⟩, opacity := some 1 } }]
      else if direction.movement = .pan then
        [{ time := 0, properties := { position := some ⟨0, 0, none⟩, opacity := some 1 } },
         { time := duration * 0.6,
           properties := { position := some ⟨100, 0, none⟩, opacity := some 1 } }]
      else []
    effects :=
      [fadeInEffect, fadeOutEffect] ++
      (if direction.mood = .mysterious then
        [{ id := "dark-overlay", type := .opacity
           parameters := [("opacity", .num 0.8)]
           startTime := 0, duration := duration }]
      else [])
    visible := true }

/-- `createSecondaryLayer(elements, duration)` (the `elements` argument only
gates the caller; the body ignores it). -/
def createSecondaryLayer (elements : List String) (duration : ℚ) : Layer :=
  { id := "secondary-elements-layer"
    name := "Secondary Elements"
    type := .composition
    trackIndex := 0
    startTime := 0
    duration := duration
    keyframes :=
      [{ time := 0, properties := { position := some ⟨0, 0, none⟩, opacity := some 0.7 } },
       { time := duration,
         properties := { position := some ⟨20, 0, none⟩, opacity := some 0.7 } }]
    effects := []
    visible := true }

/-- `createGlobalEffects(direction, duration)`. -/
def createGlobalEffects (direction : CreativeDirection) (duration : ℚ) : List Effect :=
  (if direction.style = .cinematic then
    [{ id := "film-grain", type := .filmGrain
       parameters := [("intensity", .num 0.1), ("opacity", .num 0.3)]
       startTime := 0, duration := duration }]
  else []) ++
  (if direction.mood = .uplifting then
    [{ id := "warm-color-grade", type := .colorGrade
       parameters := [("temperature", .num 0.2), ("saturation", .num 0.1)]
       startTime := 0, duration := duration }]
  else if direction.mood = .mysterious then
    [{ id := "cool-color-grade", type := .colorGrade
       parameters := [("temperature", .num (-0.2)), ("saturation", .num (-0.1)),
                      ("contrast", .num 0.1)]
       startTime := 0, duration := duration }]
  else [])

structure MotionIR where
  timeline : Timeline
  validation : ValidationResult
  deriving DecidableEq, Repr

/-- `const duration = extractDurationFromPrompt(prompt) || 5`: since the
extractor never returns `0`, the `||` only replaces `null`. -/
def directorDuration (prompt : String) : ℚ :=
  match extractDurationFromPrompt prompt with
  | some n => (n : ℚ)
  | none => 5

/-- `director(schema, prompt, imagePath?)`: the clock reading used by
`createBasicTimeline` for `metadata.createdAt` is the explicit `now`
parameter. -/
def director (schema : Schema) (prompt : String) (imagePath : Option String)
    (now : String) : MotionIR :=
  let timeline0 := createBasicTimeline 5 1920 1080 30 now
  let duration : ℚ := directorDuration prompt
  let imageAsset : Asset :=
    { id := "main-image"
      type := .image
      src := imagePath.getD "placeholder.jpg"
      metadata := some ⟨1920, 1080, schema.scene.colors⟩ }
  let creativeDirection := analyzePrompt prompt
  let camera := determineCameraMovement creativeDirection schema
  let mainLayer := createMainImageLayer imageAsset.id duration creativeDirection schema
  let layers : List Layer :=
    [mainLayer] ++
    (if schema.elements.secondary.length > 0 then
      [createSecondaryLayer schema.elements.secondary duration]
    else [])
  let videoTrack : Track :=
    { id := "video-track-1"
      name := "Main Video Track"
      index := 0
      type := .video
      layers := layers
      locked := false
      visible := true }
  let timeline : Timeline :=
    { timeline0 with
        metadata :=
          { timeline0.metadata with
              duration := duration
              backgroundColor :=
                match schema.scene.colors with
                | [] => timeline0.metadata.backgroundColor
                | c :: _ => some c }
        assets := [imageAsset]
        tracks := [videoTrack]
        camera := camera
        globalEffects := createGlobalEffects creativeDirection duration }
  { timeline := timeline, validation := validateMotionIR timeline }

/-- A sample concrete schema (the Mapper's base fallback). -/
def sampleSchema : Schema := generateEnhancedMockSchema "sample.jpg"

/-- A pattern match accepted by the loop body satisfies the range check. -/
theorem tryPattern_range (m : List Char → Option Nat) (s : List Char) (n : Nat)
    (h : tryPattern m s = some n) : 0 < n ∧ n ≤ 30 := by
  unfold tryPattern at h
  cases hf : firstMatchAt m s with
  | none =>
    simp only [hf] at h
    exact Option.noConfusion h
  | some k =>
    simp only [hf] at h
    split at h
    next hcond =>
      injection h with h2
      subst h2
      exact hcond
    next => exact absurd h (by simp)

/-- Any extracted duration lies in `(0, 30]`. -/
theorem extract_range (p : String) (n : Nat)
    (h : extractDurationFromPrompt p = some n) : 0 < n ∧ n ≤ 30 := by
  simp only [extractDurationFromPrompt] at h
  cases h1 : tryPattern p1At p.toList with
  | some k =>
    simp only [h1] at h
    injection h with h4
    subst h4
    exact tryPattern_range _ _ _ h1
  | none =>
    simp only [h1] at h
    cases h2 : tryPattern p2At p.toList with
    | some k =>
      simp only [h2] at h
      injection h with h4
      subst h4
      exact tryPattern_range _ _ _ h2
    | none =>
      simp only [h2] at h
      cases h3 : tryPattern p3At p.toList with
      | some k =>
        simp only [h3] at h
        injection h with h4
        subst h4
        exact tryPattern_range _ _ _ h3
      | none =>
        simp only [h3] at h
        exact tryPattern_range _ _ _ h

/-- C3 (counterexample): two invocations of `director` with identical
schema, prompt and asset reference but different clock readings differ —
`createBasicTimeline` stamps `metadata.createdAt` with the invocation time,
so the Motion-IR is not byte-identical across invocations. -/
theorem C3_createdAt_differs :
    director sampleSchema "calm and gentle" none "2020-01-01T00:00:00.000Z" ≠
    director sampleSchema "calm and gentle" none "2020-01-02T00:00:00.000Z" := by
  decide

/-- Overwrite the clock-derived field. -/
def eraseCreatedAt (ir : MotionIR) : MotionIR :=
  { ir with timeline :=
    { ir.timeline with metadata :=
      { ir.timeline.metadata with createdAt := "" } } }

/-- C3 (amended): `director` is deterministic up to `metadata.createdAt`:
for identical `(schema, prompt, assetReference)` the outputs — timelines
with all their metadata, tracks, camera, effects, and the validation
result — agree on every field except the clock-derived `createdAt`. -/
theorem C3_deterministic_up_to_createdAt (s : Schema) (p : String)
    (path : Option String) (t1 t2 : String) :
    eraseCreatedAt (director s p path t1) = eraseCreatedAt (director s p path t2) := rfl

/-- C4 (code evaluation at the failing input): for the prompt
"pan for 8 seconds" the timeline's duration is 8, but the single camera
movement spans `[0.5, 0.5 + 4.5] = [0.5, 5]`, not `[0.5, 8]`: its duration
is the hardcoded `5 - 0.5 = 4.5`, not `duration - 0.5 = 7.5`. -/
theorem C4_camera_movement_duration_hardcoded :
    (director sampleSchema "pan for 8 seconds" none "t").timeline.metadata.duration = 8 ∧
    ((director sampleSchema "pan for 8 seconds" none "t").timeline.camera.movements.map
      (fun m => (m.type, m.startTime, m.duration, m.easing))) =
        [(CamMoveType.pan, (0.5 : ℚ), (4.5 : ℚ), Easing.linear)] ∧
    ((director sampleSchema "pan for 8 seconds" none "t").timeline.camera.movements.map
      (fun m => m.duration)) ≠
        [(director sampleSchema "pan for 8 seconds" none "t").timeline.metadata.duration - 0.5] := by
  with_unfolding_all exact of_decide_eq_true rfl

/-- C7: the Director's timeline duration is the extracted prompt duration
(default 5), every extracted value satisfies `0 < N ≤ 30`, and the prompt
"make this cinematic, 8 seconds" yields duration 8, style `cinematic`,
camera type 2.5D and exactly one global film-grain effect. -/
theorem C7_duration_extraction_cinematic_example (s : Schema) (path : Option String)
    (now : String) (p : String) :
    ((director s p path now).timeline.metadata.duration =
      (match extractDurationFromPrompt p with
       | some n => (n : ℚ)
       | none => 5)) ∧
    (∀ n, extractDurationFromPrompt p = some n → 0 < n ∧ n ≤ 30) ∧
    ((director s "make this cinematic, 8 seconds" path now).timeline.metadata.duration = 8) ∧
    ((analyzePrompt "make this cinematic, 8 seconds").style = Style.cinematic) ∧
    ((director s "make this cinematic, 8 seconds" path now).timeline.camera.type =
      CameraType.twoPointFiveD) ∧
    (((director s "make this cinematic, 8 seconds" path now).timeline.globalEffects.filter
      (fun e => e.type = EffectType.filmGrain)).length = 1) := by
  refine ⟨rfl, fun n h => extract_range p n h, ?_, rfl, rfl, rfl⟩
  with_unfolding_all rfl

/-- Witness for `C7_duration_extraction_cinematic_example` at a concrete
schema and prompt, discharging the range implication at `n = 8`. -/
theorem C7_duration_extraction_witness :
    0 < 8 ∧ 8 ≤ 30 ∧
    (director sampleSchema "make this cinematic, 8 seconds" none "t").timeline.metadata.duration = 8 :=
  ⟨((C7_duration_extraction_cinematic_example sampleSchema none "t"
      "make this cinematic, 8 seconds").2.1 8 (by decide)).1,
   ((C7_duration_extraction_cinematic_example sampleSchema none "t"
      "make this cinematic, 8 seconds").2.1 8 (by decide)).2,
   (C7_duration_extraction_cinematic_example sampleSchema none "t"
      "make this cinematic, 8 seconds").2.2.1⟩

/-- C10: the Director's timeline always has exactly one asset (the input
image, id `main-image`) and exactly one video track at index 0, whose layer
count is 2 when the schema has secondary elements and 1 otherwise. -/
theorem C10_director_track_structure (s : Schema) (p : String)
    (path : Option String) (now : String) :
    ((director s p path now).timeline.assets.map (fun a => (a.id, a.type, a.src)) =
      [("main-image", AssetType.image, path.getD "placeholder.jpg")]) ∧
    ((director s p path now).timeline.tracks.map (fun tr => (tr.type, tr.index)) =
      [(TrackType.video, 0)]) ∧
    ((director s p path now).timeline.tracks.map (fun tr => tr.layers.length) =
      [if s.elements.secondary.isEmpty then 1 else 2]) := by
  refine ⟨rfl, rfl, ?_⟩
  cases hsec : s.elements.secondary with
  | nil => simp [director, hsec]
  | cons a l => simp [director, hsec]

/-! ## C6: layer and keyframe bounds of generated timelines -/

/-- The claimed invariant, as a decidable check over a timeline: every layer
of every track satisfies `startTime + duration ≤ metadata.duration`, and
every keyframe satisfies `0 ≤ time ≤ metadata.duration`. -/
def timelineWithinBounds (t : Timeline) : Bool :=
  t.tracks.all fun tr =>
    tr.layers.all fun l =>
      decide (l.startTime + l.duration ≤ t.metadata.duration) &&
      l.keyframes.all fun kf =>
        decide (0 ≤ kf.time) && decide (kf.time ≤ t.metadata.duration)

/-- The duration the Director settles on is nonnegative. -/
theorem directorDuration_nonneg (p : String) : 0 ≤ directorDuration p := by
  unfold directorDuration
  cases extractDurationFromPrompt p with
  | none => norm_num
  | some n => exact Nat.cast_nonneg n

/-- The layer list the Director puts on its video track stays within a
nonnegative duration bound. -/
theorem director_layers_bounds (d : ℚ) (hd : 0 ≤ d) (dir : CreativeDirection)
    (sch : Schema) (aid : String) :
    (List.all
      ([createMainImageLayer aid d dir sch] ++
        (if sch.elements.secondary.length > 0 then
          [createSecondaryLayer sch.elements.secondary d] else []))
      (fun l => decide (l.startTime + l.duration ≤ d) &&
        l.keyframes.all fun kf => decide (0 ≤ kf.time) && decide (kf.time ≤ d))) = true := by
  have h07 : d * 0.7 ≤ d := by linarith
  have h06 : d * 0.6 ≤ d := by linarith
  have h070 : 0 ≤ d * 0.7 := by positivity
  have h060 : 0 ≤ d * 0.6 := by positivity
  rcases hmv : dir.movement <;>
    by_cases hsec : sch.elements.secondary.length > 0 <;>
      simp [createMainImageLayer, createSecondaryLayer, hmv, hsec, hd, h07, h06, h070, h060]

/-- C6: for every schema, prompt and asset reference, the Director's
timeline keeps every layer inside `[0, metadata.duration]` and every
keyframe time within `[0, metadata.duration]`. -/
theorem C6_director_timeline_in_bounds (s : Schema) (p : String)
    (path : Option String) (now : String) :
    timelineWithinBounds (director s p path now).timeline = true := by
  have key := director_layers_bounds (directorDuration p) (directorDuration_nonneg p)
    (analyzePrompt p) s "main-image"
  simp only [timelineWithinBounds, director, List.all_cons, List.all_nil, Bool.and_true]
  exact key

/-! ## Coder (`src/coder.tsx`): per-layer animated style -/

/-- The style object `calculateAnimatedStyle` fills in (the `AnimatedStyle`
interface).  `style.transform = rotate(z deg)` is modelled by the rotation
angle `transformRotateZ`; the CSS string wrapper carries no further data. -/
structure AnimatedStyle where
  scaleX : Option ℚ := none
  scaleY : Option ℚ := none
  positionX : Option ℚ := none
  positionY : Option ℚ := none
  opacity : Option ℚ := none
  transformRotateZ : Option ℚ := none
  filter : Option String := none
  color : Option String := none
  deriving DecidableEq, Repr

/-- The empty style (`const style = {}` untouched). -/
def emptyStyle : AnimatedStyle := {}

/-- `applyEasing(progress, easing)`; the call site supplies
`currentKeyframe.easing || 'linear'`, and the `default` case is linear. -/
def applyEasing (progress : ℚ) (easing : Easing) : ℚ :=
  match easing with
  | .easeIn => progress * progress
  | .easeOut => progress * (2 - progress)
  | .easeInOut =>
    if progress < 0.5 then 2 * progress * progress
    else -1 + (4 - 2 * progress) * progress
  | .spring => 1 - (1 - progress) ^ 3
  | .linear => progress

/-- `keyframeToStyle(keyframe)`. -/
def keyframeToStyle (kf : Keyframe) : AnimatedStyle :=
  let s0 : AnimatedStyle := {}
  let s1 := match kf.properties.position with
    | some p => { s0 with positionX := some p.x, positionY := some p.y }
    | none => s0
  let s2 := match kf.properties.scale with
    | some sc => { s1 with scaleX := some sc.x, scaleY := some sc.y }
    | none => s1
  let s3 := match kf.properties.rotation with
    | some r => { s2 with transformRotateZ := some (r.z.getD 0) }
    | none => s2
  let s4 := match kf.properties.opacity with
    | some o => { s3 with opacity := some o }
    | none => s3
  let s5 := match kf.properties.filter with
    | some f => { s4 with filter := some f }
    | none => s4
  match kf.properties.color with
  | some c => { s5 with color := some c }
  | none => s5

/-- JavaScript truthiness of an optional number (`undefined` and `0` are
falsy), as used by the `from.z && to.z ? ... : undefined` interpolations. -/
def jsTruthyNum : Option ℚ → Bool
  | none => false
  | some q => q != 0

/-- `interpolateKeyframes(from, to, progress)`. -/
def interpolateKeyframes (f t : Keyframe) (progress : ℚ) : Keyframe :=
  let props0 := f.properties
  let props1 :=
    match f.properties.position, t.properties.position with
    | some fp, some tp =>
      { props0 with position := some (PropVec.mk
          (fp.x + (tp.x - fp.x) * progress)
          (fp.y + (tp.y - fp.y) * progress)
          (if jsTruthyNum fp.z && jsTruthyNum tp.z then
            some (fp.z.getD 0 + (tp.z.getD 0 - fp.z.getD 0) * progress)
          else none)) }
    | _, _ => props0
  let props2 :=
    match f.properties.scale, t.properties.scale with
    | some fs, some ts =>
      { props1 with scale := some (PropVec.mk
          (fs.x + (ts.x - fs.x) * progress)
          (fs.y + (ts.y - fs.y) * progress)
          (if jsTruthyNum fs.z && jsTruthyNum ts.z then
            some (fs.z.getD 0 + (ts.z.getD 0 - fs.z.getD 0) * progress)
          else none)) }
    | _, _ => props1
  let props3 :=
    match f.properties.rotation, t.properties.rotation with
    | some fr, some tr =>
      { props2 with rotation := some (PropVec.mk
          (fr.x + (tr.x - fr.x) * progress)
          (fr.y + (tr.y - fr.y) * progress)
          (some (fr.z.getD 0 + (tr.z.getD 0 - fr.z.getD 0) * progress))) }
    | _, _ => props2
  let props4 :=
    match f.properties.opacity, t.properties.opacity with
    | some fo, some tv => { props3 with opacity := some (fo + (tv - fo) * progress) }
    | _, _ => props3
  { time := f.time, properties := props4 }

/-- `calculateAnimatedStyle(layer, currentTime)` — transcribed exactly,
including the keyframe filter whose second disjunct
(`find(next.time > t)?.time === kf.time`) can never hold for a keyframe
with `kf.time <= t`. -/
def calculateAnimatedStyle (layer : Layer) (currentTime : ℚ) : AnimatedStyle :=
  let activeKeyframes := layer.keyframes.filter fun kf =>
    decide (kf.time ≤ currentTime) &&
    (match layer.keyframes.find? (fun nkf => decide (nkf.time > currentTime)) with
     | none => true
     | some nkf => decide (nkf.time = kf.time))
  match activeKeyframes.getLast? with
  | none => emptyStyle
  | some currentKeyframe =>
    match layer.keyframes.find? (fun kf => decide (kf.time > currentTime)) with
    | none => keyframeToStyle currentKeyframe
    | some nextKeyframe =>
      let progress := (currentTime - currentKeyframe.time) /
        (nextKeyframe.time - currentKeyframe.time)
      let easedProgress := applyEasing progress (currentKeyframe.easing.getD .linear)
      keyframeToStyle (interpolateKeyframes currentKeyframe nextKeyframe easedProgress)

/-- The layer of the C1 claim: keyframes `{time 0, opacity 0}` and
`{time 1, opacity 1, easing linear}`. -/
def c1Layer : Layer :=
  { id := "layer-1"
    name := "L"
    type := .image
    assetId := some "main-image"
    trackIndex := 0
    startTime := 0
    duration := 2
    keyframes :=
      [{ time := 0, properties := { opacity := some 0 } },
       { time := 1, properties := { opacity := some 1 }, easing := some .linear }]
    effects := []
    visible := true }

/-- C1 (code evaluation at the failing input): at query time `0.5` the
style is *empty* — the keyframe filter excludes every keyframe whenever a
later keyframe exists, so the interpolation branch is unreachable and no
opacity `0.5` is ever produced.  Past the last keyframe (`1.5`) the last
keyframe's values are held (opacity `1`), and before the first keyframe
(`-1`) the style is empty, as the claim states. -/
theorem C1_interpolation_branch_unreachable :
    calculateAnimatedStyle c1Layer 0.5 = emptyStyle ∧
    calculateAnimatedStyle c1Layer 1.5 = { opacity := some 1 } ∧
    calculateAnimatedStyle c1Layer (-1) = emptyStyle := by
  with_unfolding_all exact of_decide_eq_true rfl

/-! ## Pipeline (`src/pipeline.ts`): gating, retry and error categorization -/

/-- `PipelineConfig` (the nested `renderConfig` is passed through to the
external renderer and plays no role in the claims; it is omitted). -/
structure PipelineConfig where
  enableValidation : Bool
  enableFallbacks : Bool
  maxRetries : Nat
  timeout : ℚ
  deriving DecidableEq, Repr

def DEFAULT_CONFIG : PipelineConfig :=
  { enableValidation := true
    enableFallbacks := true
    maxRetries := 3
    timeout := 300000 }

/-- `executeWithRetry(operation, …, attempt)`: the outcome of the `n`-th
sequential attempt is supplied by the oracle `tries`; on failure the stage is
retried (after a backoff delay, which has no functional effect) while
`attempt < maxRetries` and fallbacks are enabled. -/
def executeWithRetry {α : Type} (tries : Nat → Except String α)
    (maxRetries : Nat) (enableFallbacks : Bool) (attempt : Nat) : Except String α :=
  match tries attempt with
  | .ok a => .ok a
  | .error e =>
    if h : attempt < maxRetries ∧ enableFallbacks = true then
      executeWithRetry tries maxRetries enableFallbacks (attempt + 1)
    else .error e
termination_by maxRetries - attempt
decreasing_by omega

inductive ErrorCategory
  | image_analysis | motion_generation | composition | rendering | unknown
  deriving DecidableEq, Repr

def categoryName : ErrorCategory → String
  | .image_analysis => "image_analysis"
  | .motion_generation => "motion_generation"
  | .composition => "composition"
  | .rendering => "rendering"
  | .unknown => "unknown"

/-- `categorizeError(error)`: keyword matching on the lower-cased message. -/
def categorizeError (msg : String) : ErrorCategory :=
  let m := lowerStr msg
  let has := fun kw => strIncludes m kw
  if has "image" || has "mapper" || has "vision" || has "schema" then .image_analysis
  else if has "motion" || has "director" || has "timeline" || has "creative" then
    .motion_generation
  else if has "composition" || has "coder" || has "remotion" then .composition
  else if has "render" || has "ffmpeg" || has "video" || has "cli" then .rendering
  else .unknown

/-- The enhanced error message built in `generateVideo`'s catch block. -/
def enhanceErrorMessage (msg : String) : String :=
  let cat := categorizeError msg
  let base := "Pipeline failed (" ++ categoryName cat ++ "): " ++ msg
  match cat with
  | .image_analysis => base ++ ". Please check if the image file exists and is valid."
  | .motion_generation => base ++ ". Please check your prompt and try again."
  | .rendering => base ++ ". This might be a temporary issue with the rendering service."
  | _ => base

/-- The Motion-IR validation block after stage 2 in `src/pipeline.ts`
(lines 134–140): when `enableValidation` is on and
`motionIR.validation.isValid` is false, the source only emits
`logger.warn('-IR validation warnings:', …)` and falls through — no error is
raised from this block, for any configuration and any Motion-IR.  (The
repository's own built artifact `dist/pipeline.js` instead throws
`Motion-IR validation failed: …` here.) -/
def motionIRGate (cfg : PipelineConfig) (ir : MotionIR) : Except String Unit :=
  .ok ()

/-- The Coder's output metadata (`RemotionComposition.metadata` plus the
stable composition identifier); the React component itself is render-side. -/
structure CompositionMeta where
  compositionId : String
  width : ℚ
  height : ℚ
  fps : ℚ
  duration : ℚ
  deriving DecidableEq, Repr

/-- `coder(motionIR)` restricted to the data the pipeline consumes. -/
def coderMeta (t : Timeline) : CompositionMeta :=
  { compositionId := "dynamic-composition"
    width := t.metadata.width
    height := t.metadata.height
    fps := t.metadata.fps
    duration := t.metadata.duration }

/-- The result bundle (`PipelineResult`; the wall-clock `processingTime`,
`videoUrl` string formatting and `fileSize` are IO-side and omitted). -/
structure PipelineResultM where
  videoPath : String
  metaDuration : ℚ
  metaWidth : ℚ
  metaHeight : ℚ
  metaFps : ℚ
  motionIR : MotionIR
  deriving DecidableEq, Repr

/-- `prompt.trim()`: strip leading and trailing whitespace. -/
def strTrim (s : String) : String :=
  String.mk (((s.toList.dropWhile Char.isWhitespace).reverse.dropWhile
    Char.isWhitespace).reverse)

/-- `generateVideo(imagePath, prompt, config)`: the filesystem checks,
the Mapper's attempt outcomes and the renderer's attempt outcomes are
oracles; the Director and Coder are the pure functions embedded above.
Both validation gates sit *outside* `executeWithRetry`, so a gate error is
raised without consuming retry attempts; the catch block wraps any error
with `enhanceErrorMessage`. -/
def generateVideo (cfg : PipelineConfig) (imagePath prompt now : String)
    (imageExists : Bool)
    (mapperTries : Nat → Except String Schema)
    (renderTries : Nat → Except String String)
    (renderedExists : Bool) : Except String PipelineResultM :=
  if !imageExists then .error ("Invalid image path: " ++ imagePath)
  else if strTrim prompt = "" then .error "Prompt cannot be empty"
  else
    let body : Except String PipelineResultM :=
      match executeWithRetry mapperTries cfg.maxRetries cfg.enableFallbacks 1 with
      | .error e => .error e
      | .ok schema =>
        if cfg.enableValidation && !(validateSchema (schemaToDyn schema)).isValid then
          .error ("Schema validation failed: " ++
            String.intercalate ", " (validateSchema (schemaToDyn schema)).errors)
        else
          let motionIR := director schema prompt (some imagePath) now
          match motionIRGate cfg motionIR with
          | .error e => .error e
          | .ok _ =>
            let comp := coderMeta motionIR.timeline
            match executeWithRetry renderTries cfg.maxRetries cfg.enableFallbacks 1 with
            | .error e => .error e
            | .ok videoPath =>
              if !renderedExists then
                .error "Video rendering completed but output file was not created"
              else
                .ok { videoPath := videoPath
                      metaDuration := comp.duration
                      metaWidth := comp.width
                      metaHeight := comp.height
                      metaFps := comp.fps
                      motionIR := motionIR }
    match body with
    | .ok r => .ok r
    | .error e => .error (enhanceErrorMessage e)

/-- C2 (code evaluation): with `enableValidation` on, a failed *schema*
validation after stage 1 makes `generateVideo` raise immediately — outside
the retry loop, yielding no result bundle — but the Motion-IR validation
block after stage 2 never raises for any configuration or Motion-IR: the
source only logs a warning there. -/
theorem C2_schema_gate_raises_ir_gate_never
    (cfg : PipelineConfig) (imagePath prompt now : String)
    (mapperTries : Nat → Except String Schema)
    (renderTries : Nat → Except String String)
    (schema : Schema)
    (hprompt : strTrim prompt ≠ "")
    (hval : cfg.enableValidation = true)
    (hmap : executeWithRetry mapperTries cfg.maxRetries cfg.enableFallbacks 1 =
      .ok schema)
    (hbad : (validateSchema (schemaToDyn schema)).isValid = false) :
    (∀ c ir, motionIRGate c ir = Except.ok ()) ∧
    generateVideo cfg imagePath prompt now true mapperTries renderTries true =
      .error (enhanceErrorMessage ("Schema validation failed: " ++
        String.intercalate ", " (validateSchema (schemaToDyn schema)).errors)) := by
  refine ⟨fun c ir => rfl, ?_⟩
  unfold generateVideo
  rw [hmap]
  simp [hval, hbad, hprompt]

/-- A typed schema that fails `validateSchema` (empty `emotion` is falsy). -/
def badEmotionSchema : Schema :=
  { sampleSchema with scene := { sampleSchema.scene with emotion := "" } }

/-- Witness for `C2_schema_gate_raises_ir_gate_never` on a concrete run. -/
theorem C2_schema_gate_witness :
    generateVideo DEFAULT_CONFIG "image.jpg" "a calm video" "t" true
      (fun _ => .ok badEmotionSchema) (fun _ => .ok "out.mp4") true =
      .error (enhanceErrorMessage ("Schema validation failed: " ++
        String.intercalate ", " (validateSchema (schemaToDyn badEmotionSchema)).errors)) :=
  (C2_schema_gate_raises_ir_gate_never DEFAULT_CONFIG "image.jpg" "a calm video" "t"
    (fun _ => .ok badEmotionSchema) (fun _ => .ok "out.mp4") badEmotionSchema
    (by decide) rfl (by simp [executeWithRetry]) (by decide)).2
